import Mathlib

/-!
# gitlab-controller: resource reconcilers

A shallow embedding of `pkg/controller/gitlab/redis.go` (the Redis claim reconciler),
together with models of the bucket secret synthesizer and the Kubernetes reconciler,
and the properties they satisfy.

Conventions of the embedding.

* A Go `error` value is `Option GoError`; `none` is `nil`.
* Go `string` and `[]byte` are both `String`; the conversions between them are the identity.
* A pointer argument that the callee may write to (`obj` of `client.Get`) is passed by value
  and handed back in the result.
* The object store behind the client is an explicit state of type `σ`, threaded through
  every call; each call that `reconcile` makes on a collaborator is appended to a call log.
* `context.Context` carries no data the reconcilers look at and is left out.
-/

set_option autoImplicit false

namespace Gitlab

/-! ## Errors (`github.com/pkg/errors`, `k8s.io/apimachinery/pkg/api/errors`) -/

/-- A Go error value: a plain message (`errors.New`), an API status error carrying a
reason (`kerrors.StatusError`), or an error wrapped with a message (`errors.Wrapf`;
the recorded stack is not modelled). -/
inductive GoError where
  | plain (msg : String)
  | status (reason : String) (msg : String)
  | wrap (cause : GoError) (msg : String)
  deriving DecidableEq

/-- The value of `metav1.StatusReasonNotFound`. -/
def StatusReasonNotFound : String := "NotFound"

/-- The value of `metav1.StatusReasonAlreadyExists`. -/
def StatusReasonAlreadyExists : String := "AlreadyExists"

/-- The method `Error()`: a wrapped error prints as `msg: cause`. -/
def GoError.Error : GoError → String
  | .plain m => m
  | .status _ m => m
  | .wrap c m => m ++ ": " ++ c.Error

/-- The function `kerrors.IsNotFound`: the error itself is an API status whose reason is
`NotFound` (a wrapped error is not looked into). -/
def IsNotFound : GoError → Bool
  | .status r _ => r == StatusReasonNotFound
  | _ => false

/-- The function `kerrors.NewNotFound`, with the resource name as its only argument. -/
def NewNotFound (name : String) : GoError :=
  .status StatusReasonNotFound (name ++ " not found")

/-- The function `errors.Wrapf` (and `errors.Wrap`) applied to an already rendered
message: `nil` stays `nil`, any other error is wrapped. -/
def Wrapf (err : Option GoError) (msg : String) : Option GoError :=
  match err with
  | none => none
  | some e => some (.wrap e msg)

/-! ## Formatting (`fmt.Sprintf`, the `%s` verb only) -/

/-- Substitution of the `%s` verbs of a format by the arguments, left to right. A verb
without an argument prints `%!s(MISSING)`; arguments left over are appended as
`%!(EXTRA ...)`. -/
def sprintfAux : List Char → List String → List Char
  | '%' :: 's' :: rest, a :: as => a.data ++ sprintfAux rest as
  | '%' :: 's' :: rest, [] => "%!s(MISSING)".data ++ sprintfAux rest []
  | c :: rest, as => c :: sprintfAux rest as
  | [], [] => []
  | [], a :: as =>
      ("%!(EXTRA " ++ ", ".intercalate ((a :: as).map fun x => "string=" ++ x) ++ ")").data

/-- The function `fmt.Sprintf` for formats whose only verbs are `%s`. -/
def Sprintf (format : String) (args : List String) : String :=
  ⟨sprintfAux format.data args⟩

/-! ## Kubernetes and Crossplane object types -/

/-- The type `corev1.ObjectReference`. -/
structure ObjectReference where
  Kind : String := ""
  Namespace : String := ""
  Name : String := ""
  UID : String := ""
  APIVersion : String := ""
  ResourceVersion : String := ""
  FieldPath : String := ""
  deriving DecidableEq

/-- The type `types.NamespacedName` (alias `client.ObjectKey`). -/
structure NamespacedName where
  Namespace : String := ""
  Name : String := ""
  deriving DecidableEq

/-- The method `NamespacedName.String`: `<namespace>/<name>`. -/
def NamespacedName.String (n : NamespacedName) : String :=
  n.Namespace ++ "/" ++ n.Name

/-- The type `metav1.OwnerReference`. -/
structure OwnerReference where
  APIVersion : String := ""
  Kind : String := ""
  Name : String := ""
  UID : String := ""
  Controller : Option Bool := none
  BlockOwnerDeletion : Option Bool := none
  deriving DecidableEq

/-- The type `metav1.ObjectMeta`, restricted to the fields that identify and own an object. -/
structure ObjectMeta where
  Name : String := ""
  Namespace : String := ""
  OwnerReferences : List OwnerReference := []
  deriving DecidableEq

/-- One condition of a claim (`xpcorev1alpha1.Condition`). -/
structure Condition where
  ConditionType : String := ""
  Status : String := ""
  LastTransitionTime : Nat := 0
  Reason : String := ""
  Message : String := ""
  deriving DecidableEq

/-- The type `xpcorev1alpha1.ResourceClaimStatus`: the claim's conditions, its binding
phase and the name of the connection secret it publishes. -/
structure ResourceClaimStatus where
  Conditions : List Condition := []
  Phase : String := ""
  CredentialsSecretRef : String := ""
  deriving DecidableEq

/-- The type `xpcachev1alpha1.RedisClusterSpec`. -/
structure RedisClusterSpec where
  ClassRef : Option ObjectReference := none
  EngineVersion : String := ""
  deriving DecidableEq

/-- The type `xpcachev1alpha1.RedisCluster`. -/
structure RedisCluster where
  ObjectMeta : ObjectMeta := {}
  Spec : RedisClusterSpec := {}
  Status : ResourceClaimStatus := {}
  deriving DecidableEq

/-- The type `v1alpha1.GitLabSpec`, restricted to the references the reconcilers read. -/
structure GitLabSpec where
  ProviderRef : ObjectReference := {}
  ClusterRef : Option ObjectReference := none
  deriving DecidableEq

/-- The type `v1alpha1.GitLab`: the declaration. -/
structure GitLab where
  Name : String := ""
  Namespace : String := ""
  UID : String := ""
  Spec : GitLabSpec := {}
  deriving DecidableEq

/-! ## Collaborators -/

/-- The interface `client.Client`, restricted to `Get` and `Create`, over objects of type
`α` and an object store of type `σ`. `Get` hands back the object it was given, as it left
it, whether or not it fails; `Create` writes only to the store (the object handed to
`Create` is not read again by any caller below). -/
structure Client (σ α : Type) where
  Get : σ → NamespacedName → α → Option GoError × α × σ
  Create : σ → α → Option GoError × σ

/-- The interface `resourceClassFinder`: `find(ctx, provider, resource)` returns a class
reference and an error, either of which may be `nil`. -/
structure resourceClassFinder (σ : Type) where
  find : σ → ObjectReference → String → (Option ObjectReference × Option GoError) × σ

/-- One call made by a reconciler on one of its collaborators. -/
inductive Call (α : Type) where
  | find (provider : ObjectReference) (resource : String)
  | get (key : NamespacedName) (obj : α)
  | create (obj : α)
  deriving DecidableEq

/-- Whether a call is a `Get` on the client. -/
def Call.isGet {α : Type} : Call α → Bool
  | .get _ _ => true
  | _ => false

/-- Whether a call is a `Create` on the client. -/
def Call.isCreate {α : Type} : Call α → Bool
  | .create _ => true
  | _ => false

/-- Whether a call is a `find` on the resource class finder. -/
def Call.isFind {α : Type} : Call α → Bool
  | .find _ _ => true
  | _ => false

/-- What one run of `reconcile` leaves behind: the returned error, the status slot of the
reconciler, the object store, and the calls made, in order. -/
structure Outcome (σ α : Type) where
  err : Option GoError
  status : Option ResourceClaimStatus
  store : σ
  calls : List (Call α)

/-! ## Constants and helpers declared outside `redis.go` -/

/-- The error format `errorFmtFailedToFindResourceClass`. -/
def errorFmtFailedToFindResourceClass : String :=
  "failed to find resource class for %s provider %s"

/-- The error format `errorFmtFailedToCreate`. -/
def errorFmtFailedToCreate : String := "failed to create %s %s"

/-- The error format `errorFmtFailedToRetrieveInstance`. -/
def errorFmtFailedToRetrieveInstance : String := "failed to retrieve %s instance %s"

/-- Values that `redis.go` uses and that are fixed elsewhere: the engine version constant,
the kind/API-version string of the Redis claim, and the text `%s` prints for a
`corev1.ObjectReference` value. -/
structure Constants where
  redisEngineVersion : String
  RedisClusterKindAPIVersion : String
  formatObjectReference : ObjectReference → String

/-- Modelled from the spec: the struct `baseResourceReconciler` is declared outside
`redis.go`. It holds the declaration, the client, the last observed status and the kind
suffix from which the names of downstream objects are derived. -/
structure baseResourceReconciler (σ α : Type) where
  GitLab : GitLab
  client : Client σ α
  status : Option ResourceClaimStatus := none
  kind : String

namespace baseResourceReconciler

variable {σ α : Type}

/-- The method `GetProviderRef` of the declaration. -/
def GetProviderRef (r : baseResourceReconciler σ α) : ObjectReference :=
  r.GitLab.Spec.ProviderRef

/-- Modelled from the spec: the helper `newObjectMeta` is declared outside `redis.go`.
Name `<decl>-<kind>`, the declaration's namespace, and an owner reference to the
declaration with controller ownership set. -/
def newObjectMeta (r : baseResourceReconciler σ α) : ObjectMeta :=
  { Name := r.GitLab.Name ++ "-" ++ r.kind
    Namespace := r.GitLab.Namespace
    OwnerReferences :=
      [{ Kind := "GitLab", Name := r.GitLab.Name, UID := r.GitLab.UID,
         Controller := some true }] }

/-- Modelled from the spec: the helper `newNamespacedName` is declared outside `redis.go`.
The identity of `newObjectMeta` as a lookup key. -/
def newNamespacedName (r : baseResourceReconciler σ α) : NamespacedName :=
  { Namespace := r.GitLab.Namespace, Name := r.GitLab.Name ++ "-" ++ r.kind }

end baseResourceReconciler

/-! ## `redis.go` -/

/-- The constant `redisClaimKind`. -/
def redisClaimKind : String := "redis"

/-- The struct `redisReconciler`: the embedded base and the resource class finder. -/
structure redisReconciler (σ : Type) where
  base : baseResourceReconciler σ RedisCluster
  resourceClassFinder : resourceClassFinder σ

namespace redisReconciler

variable {σ : Type}

/-- The method `getClaimKind`. -/
def getClaimKind (_r : redisReconciler σ) : String := redisClaimKind

/-- The claim object `red` that `reconcile` builds from the class reference. -/
def newClaim (K : Constants) (r : redisReconciler σ) (ref : Option ObjectReference) :
    RedisCluster :=
  { ObjectMeta := r.base.newObjectMeta
    Spec := { ClassRef := ref, EngineVersion := K.redisEngineVersion } }

/-- The method `reconcile`. -/
def reconcile (K : Constants) (r : redisReconciler σ) (s : σ) : Outcome σ RedisCluster :=
  let provider := r.base.GetProviderRef
  let findCall : Call RedisCluster := .find provider K.RedisClusterKindAPIVersion
  match r.resourceClassFinder.find s provider K.RedisClusterKindAPIVersion with
  | ((_, some err), s1) =>
      { err := Wrapf (some err) (Sprintf errorFmtFailedToFindResourceClass
          [r.getClaimKind, K.formatObjectReference provider])
        status := r.base.status, store := s1, calls := [findCall] }
  | ((ref, none), s1) =>
      let red := newClaim K r ref
      let key := r.base.newNamespacedName
      match r.base.client.Get s1 key red with
      | (some err, red1, s2) =>
          if IsNotFound err then
            let (cerr, s3) := r.base.client.Create s2 red1
            { err := Wrapf cerr (Sprintf errorFmtFailedToCreate [r.getClaimKind, key.String])
              status := r.base.status, store := s3
              calls := [findCall, .get key red, .create red1] }
          else
            { err := Wrapf (some err)
                (Sprintf errorFmtFailedToRetrieveInstance [r.getClaimKind, key.String])
              status := r.base.status, store := s2, calls := [findCall, .get key red] }
      | (none, red1, s2) =>
          { err := none, status := some red1.Status, store := s2
            calls := [findCall, .get key red] }

/-- The claim object as the `Get` of one run of `reconcile` leaves it: `none` when the
run makes no `Get` (the finder failed). -/
def observed (K : Constants) (r : redisReconciler σ) (s : σ) : Option RedisCluster :=
  match r.resourceClassFinder.find s r.base.GetProviderRef K.RedisClusterKindAPIVersion with
  | ((_, some _), _) => none
  | ((ref, none), s1) =>
      some (r.base.client.Get s1 r.base.newNamespacedName (newClaim K r ref)).2.1

end redisReconciler

/-! ## An object store behind the client -/

/-- An object store holding Redis claims, each under its own namespace and name. -/
abbrev Store := List RedisCluster

/-- The stored object with the given namespace and name, if there is one. -/
def Store.lookup (st : Store) (key : NamespacedName) : Option RedisCluster :=
  st.find? fun o => o.ObjectMeta.Namespace == key.Namespace && o.ObjectMeta.Name == key.Name

/-- A client over the object store: `Get` finds exactly the stored objects and reports
not-found otherwise, leaving the object it was handed as it was; `Create` adds the object
under its own namespace and name, unless one is stored there already. -/
def storeClient : Client Store RedisCluster :=
  { Get := fun st key obj =>
      match st.lookup key with
      | some o => (none, o, st)
      | none => (some (NewNotFound key.Name), obj, st)
    Create := fun st obj =>
      match st.lookup { Namespace := obj.ObjectMeta.Namespace, Name := obj.ObjectMeta.Name } with
      | some _ =>
          (some (.status StatusReasonAlreadyExists (obj.ObjectMeta.Name ++ " already exists")),
            st)
      | none => (none, obj :: st) }

/-- A finder with a fixed result that does not touch the store. -/
def constFinder (res : Option ObjectReference × Option GoError) : resourceClassFinder Store :=
  { find := fun st _ _ => (res, st) }

/-- A Redis reconciler over the object store. -/
def storeReconciler (g : GitLab) (kind : String) (status : Option ResourceClaimStatus)
    (res : Option ObjectReference × Option GoError) : redisReconciler Store :=
  { base := { GitLab := g, client := storeClient, status := status, kind := kind }
    resourceClassFinder := constFinder res }

/-! ## Bucket connection-secret synthesizer (AWS) -/

/-- A Go map `map[string][]byte`: `none` is the nil map. -/
abbrev SecretData := Option (AList fun _ : String => String)

/-- The type `corev1.Secret`, restricted to its data map. -/
structure Secret where
  Data : SecretData := none

/-- The built-in `len` on a data map: zero for the nil map. -/
def SecretData.len : SecretData → Nat
  | none => 0
  | some m => m.entries.length

/-- The value under a key as a string: the empty string when the key (or the map) is
absent, as the conversion `string(m[key])` gives. -/
def SecretData.getString (d : SecretData) (key : String) : String :=
  match d with
  | none => ""
  | some m => (m.lookup key).getD ""

/-- The value under a key, if any. -/
def SecretData.get (d : SecretData) (key : String) : Option String :=
  match d with
  | none => none
  | some m => m.lookup key

/-- The error message `errorMsgEmptyConnectionSecret`. -/
def errorMsgEmptyConnectionSecret : String := "empty connection secret"

/-- The error message `errorFailedToCreateConnectionData`. -/
def errorFailedToCreateConnectionData : String := "failed to create connection data"

/-- The error message `errorFailedToCreateConfigData`. -/
def errorFailedToCreateConfigData : String := "failed to create config data"

/-- The key `xpcorev1alpha1.ResourceCredentialsSecretUserKey`. -/
def ResourceCredentialsSecretUserKey : String := "username"

/-- The key `xpcorev1alpha1.ResourceCredentialsSecretPasswordKey`. -/
def ResourceCredentialsSecretPasswordKey : String := "password"

/-- The output key `connectionKey`. -/
def connectionKey : String := "connection"

/-- The output key `configKey`. -/
def configKey : String := "config"

/-- The two AWS templates, each with two `%s` verbs (access key, secret key); their text
is fixed outside the files at hand. -/
structure AwsFormats where
  awsConnectionFmt : String
  awsS3CmdConfigFmt : String

/-- Modelled from the spec: the shared body of the two AWS secret data creators, which
are declared in `bucketsaws.go`. An empty or nil data map fails with
`empty connection secret` and is left as it is; otherwise `format` is rendered with the
values under `username` and `password` and written under `outKey`. -/
def createSecretData (format outKey : String) (secret : Secret) : Option GoError × Secret :=
  if secret.Data.len = 0 then
    (some (.plain errorMsgEmptyConnectionSecret), secret)
  else
    match secret.Data with
    | none => (some (.plain errorMsgEmptyConnectionSecret), secret)
    | some m =>
        let user := secret.Data.getString ResourceCredentialsSecretUserKey
        let pass := secret.Data.getString ResourceCredentialsSecretPasswordKey
        (none, { secret with Data := some (m.insert outKey (Sprintf format [user, pass])) })

/-- Modelled from the spec: the method `awsSecretConnectionCreator.create`, declared in
`bucketsaws.go`. -/
def awsSecretConnectionCreator.create (F : AwsFormats) (secret : Secret) :
    Option GoError × Secret :=
  createSecretData F.awsConnectionFmt connectionKey secret

/-- Modelled from the spec: the method `awsSecretS3CmdConfigCreator.create`, declared in
`bucketsaws.go`. -/
def awsSecretS3CmdConfigCreator.create (F : AwsFormats) (secret : Secret) :
    Option GoError × Secret :=
  createSecretData F.awsS3CmdConfigFmt configKey secret

/-- The interface `secretDataCreator`: `create(secret)` may write to the secret and
returns an error. -/
structure secretDataCreator where
  create : Secret → Option GoError × Secret

/-- Which of the two creators of an updater was invoked. -/
inductive CreatorCall where
  | connection
  | config
  deriving DecidableEq

/-- The struct `awsSecretUpdater`. -/
structure awsSecretUpdater where
  connection : secretDataCreator
  config : secretDataCreator

/-- What `update` leaves behind: the returned error, the secret, and the creators
invoked, in order. -/
structure UpdateOutcome where
  err : Option GoError
  secret : Secret
  invoked : List CreatorCall

/-- Modelled from the spec: the method `awsSecretUpdater.update`, declared in
`bucketsaws.go`. The connection creator runs first; a failure of either creator is
wrapped and ends the update. -/
def awsSecretUpdater.update (u : awsSecretUpdater) (secret : Secret) : UpdateOutcome :=
  match u.connection.create secret with
  | (some e, s1) =>
      { err := Wrapf (some e) errorFailedToCreateConnectionData, secret := s1
        invoked := [.connection] }
  | (none, s1) =>
      match u.config.create s1 with
      | (some e, s2) =>
          { err := Wrapf (some e) errorFailedToCreateConfigData, secret := s2
            invoked := [.connection, .config] }
      | (none, s2) => { err := none, secret := s2, invoked := [.connection, .config] }

/-! ## Kubernetes reconciler -/

/-- The type `xpcomputev1alpha1.KubernetesClusterSpec`, restricted to the class reference. -/
structure KubernetesClusterSpec where
  ClassRef : Option ObjectReference := none
  deriving DecidableEq

/-- The type `xpcomputev1alpha1.KubernetesCluster`. -/
structure KubernetesCluster where
  ObjectMeta : ObjectMeta := {}
  Spec : KubernetesClusterSpec := {}
  Status : ResourceClaimStatus := {}
  deriving DecidableEq

/-- Values the Kubernetes reconciler uses and that are fixed outside the files at hand:
its claim kind, the kind/API-version string of the cluster claim, and the text `%s`
prints for a `corev1.ObjectReference` value. -/
structure KubernetesConstants where
  kubernetesClaimKind : String
  KubernetesClusterKindAPIVersion : String
  formatObjectReference : ObjectReference → String

/-- The struct `kubernetesReconciler`: the embedded base and the resource class finder. -/
structure kubernetesReconciler (σ : Type) where
  base : baseResourceReconciler σ KubernetesCluster
  resourceClassFinder : resourceClassFinder σ

/-- Modelled from the spec: the method `kubernetesReconciler.reconcile`, declared in
`kubernetes.go`. With a `clusterRef`, the referenced cluster is read under the
reference's namespace and name and its status stored, any read error being wrapped with
`failed to retrieve <kind> instance <key>`; without one, the class is looked up and the
claim is read or created as for every other resource. -/
def kubernetesReconciler.reconcile {σ : Type} (K : KubernetesConstants)
    (r : kubernetesReconciler σ) (s : σ) : Outcome σ KubernetesCluster :=
  match r.base.GitLab.Spec.ClusterRef with
  | some cref =>
      let key : NamespacedName := { Namespace := cref.Namespace, Name := cref.Name }
      let obj : KubernetesCluster := {}
      match r.base.client.Get s key obj with
      | (some err, _, s1) =>
          { err := Wrapf (some err)
              (Sprintf errorFmtFailedToRetrieveInstance [K.kubernetesClaimKind, key.String])
            status := r.base.status, store := s1, calls := [.get key obj] }
      | (none, obj1, s1) =>
          { err := none, status := some obj1.Status, store := s1, calls := [.get key obj] }
  | none =>
      let provider := r.base.GetProviderRef
      let findCall : Call KubernetesCluster := .find provider K.KubernetesClusterKindAPIVersion
      match r.resourceClassFinder.find s provider K.KubernetesClusterKindAPIVersion with
      | ((_, some err), s1) =>
          { err := Wrapf (some err) (Sprintf errorFmtFailedToFindResourceClass
              [K.kubernetesClaimKind, K.formatObjectReference provider])
            status := r.base.status, store := s1, calls := [findCall] }
      | ((ref, none), s1) =>
          let obj : KubernetesCluster :=
            { ObjectMeta := r.base.newObjectMeta, Spec := { ClassRef := ref } }
          let key := r.base.newNamespacedName
          match r.base.client.Get s1 key obj with
          | (some err, obj1, s2) =>
              if IsNotFound err then
                let (cerr, s3) := r.base.client.Create s2 obj1
                { err := Wrapf cerr
                    (Sprintf errorFmtFailedToCreate [K.kubernetesClaimKind, key.String])
                  status := r.base.status, store := s3
                  calls := [findCall, .get key obj, .create obj1] }
              else
                { err := Wrapf (some err) (Sprintf errorFmtFailedToRetrieveInstance
                    [K.kubernetesClaimKind, key.String])
                  status := r.base.status, store := s2, calls := [findCall, .get key obj] }
          | (none, obj1, s2) =>
              { err := none, status := some obj1.Status, store := s2
                calls := [findCall, .get key obj] }

/-! ## Concrete collaborators used to exercise the theorems -/

/-- Sample constants. -/
def sampleConstants : Constants :=
  { redisEngineVersion := "3.2"
    RedisClusterKindAPIVersion := "RedisCluster.cache.crossplane.io/v1alpha1"
    formatObjectReference := fun o => o.Namespace ++ "/" ++ o.Name }

/-- A sample declaration. -/
def sampleGitLab : GitLab :=
  { Name := "test-name", Namespace := "default", UID := "test-uid"
    Spec := { ProviderRef := { Namespace := "default", Name := "test-provider" } } }

/-- The error the tests inject: `errors.New("test-error")`. -/
def testError : GoError := .plain "test-error"

/-- A finder that fails with `testError`. -/
def failingFinder : resourceClassFinder Unit :=
  { find := fun s _ _ => ((none, some testError), s) }

/-- A finder that returns `(nil, nil)`. -/
def nilFinder : resourceClassFinder Unit :=
  { find := fun s _ _ => ((none, none), s) }

/-- A client whose `Get` reports not-found and whose `Create` returns `cerr`. -/
def notFoundClient (cerr : Option GoError) : Client Unit RedisCluster :=
  { Get := fun s _ obj => (some (NewNotFound ""), obj, s)
    Create := fun s _ => (cerr, s) }

/-- A client whose `Get` reports not-found after writing the engine version `9.9` into
the object it was handed, and whose `Create` succeeds. -/
def rewritingClient : Client Unit RedisCluster :=
  { Get := fun s _ obj =>
      (some (NewNotFound ""), { obj with Spec := { obj.Spec with EngineVersion := "9.9" } }, s)
    Create := fun s _ => (none, s) }

/-- A client whose `Get` fails with `testError`. -/
def brokenClient : Client Unit RedisCluster :=
  { Get := fun s _ obj => (some testError, obj, s)
    Create := fun s _ => (none, s) }

/-- A ready status. -/
def readyStatus : ResourceClaimStatus :=
  { Conditions := [{ ConditionType := "Ready", Status := "True" }], Phase := "Bound" }

/-- A client whose `Get` succeeds and fills in `readyStatus`. -/
def readyClient : Client Unit RedisCluster :=
  { Get := fun s _ obj => (none, { obj with Status := readyStatus }, s)
    Create := fun s _ => (none, s) }

/-- A Redis reconciler over the sample declaration. -/
def sampleReconciler (c : Client Unit RedisCluster) (f : resourceClassFinder Unit)
    (st : Option ResourceClaimStatus) : redisReconciler Unit :=
  { base := { GitLab := sampleGitLab, client := c, status := st, kind := "redis" }
    resourceClassFinder := f }

/-- The Redis reconciler of the sample declaration over the object store, with a finder
that returns `(nil, nil)`. -/
def sampleStoreReconciler (status : Option ResourceClaimStatus) : redisReconciler Store :=
  storeReconciler sampleGitLab "redis" status (none, none)

/-- Sample AWS templates. -/
def sampleFormats : AwsFormats :=
  { awsConnectionFmt := "id=%s key=%s"
    awsS3CmdConfigFmt := "[default] access_key = %s secret_key = %s" }

/-- The data map of the test case `NoKeys`. -/
def noKeysData : AList fun _ : String => String :=
  (∅ : AList fun _ : String => String).insert "foo" "bar"

/-- The data map of the test case `Keys`. -/
def keysData : AList fun _ : String => String :=
  ((noKeysData.insert ResourceCredentialsSecretUserKey "test-access").insert
    ResourceCredentialsSecretPasswordKey "test-secret")

/-- A creator that returns `err` and leaves the secret as it is. -/
def mockSecretDataCreator (err : Option GoError) : secretDataCreator :=
  { create := fun secret => (err, secret) }

/-- A creating status. -/
def creatingStatus : ResourceClaimStatus :=
  { Conditions := [{ ConditionType := "Creating", Status := "True" }] }

/-- A declaration with a cluster reference, as in the test case `SuccessfulWithClusterRef`. -/
def clusterRefGitLab : GitLab :=
  { Name := "test-name", Namespace := "default", UID := "test-uid"
    Spec := { ClusterRef := some { Namespace := "default", Name := "test-name" } } }

/-- Sample constants of the Kubernetes reconciler. -/
def sampleKubernetesConstants : KubernetesConstants :=
  { kubernetesClaimKind := "kubernetes"
    KubernetesClusterKindAPIVersion := "KubernetesCluster.compute.crossplane.io/v1alpha1"
    formatObjectReference := fun o => o.Namespace ++ "/" ++ o.Name }

/-- A cluster client whose `Get` returns `err`, setting the creating status when it
succeeds. -/
def clusterClient (err : Option GoError) : Client Unit KubernetesCluster :=
  { Get := fun s _ obj =>
      match err with
      | none => (none, { obj with Status := creatingStatus }, s)
      | some e => (some e, obj, s)
    Create := fun s _ => (none, s) }

/-- A Kubernetes reconciler over the declaration with a cluster reference. -/
def sampleKubernetesReconciler (err : Option GoError) : kubernetesReconciler Unit :=
  { base := { GitLab := clusterRefGitLab, client := clusterClient err
              kind := "KubernetesCluster" }
    resourceClassFinder := failingFinder }

/-! ## Rendered error messages -/

theorem Sprintf_failedToFindResourceClass (a b : String) :
    Sprintf errorFmtFailedToFindResourceClass [a, b]
      = "failed to find resource class for " ++ a ++ " provider " ++ b := by
  apply String.ext
  simp [Sprintf, errorFmtFailedToFindResourceClass, sprintfAux]

theorem Sprintf_failedToCreate (a b : String) :
    Sprintf errorFmtFailedToCreate [a, b] = "failed to create " ++ a ++ " " ++ b := by
  apply String.ext
  simp [Sprintf, errorFmtFailedToCreate, sprintfAux]

theorem Sprintf_failedToRetrieveInstance (a b : String) :
    Sprintf errorFmtFailedToRetrieveInstance [a, b]
      = "failed to retrieve " ++ a ++ " instance " ++ b := by
  apply String.ext
  simp [Sprintf, errorFmtFailedToRetrieveInstance, sprintfAux]

/-! ## `redisReconciler.reconcile` -/

open redisReconciler

/-- C1. When the resource class finder returns an error `e`, `reconcile` returns `e`
wrapped with `failed to find resource class for redis provider <providerRef>`, and the
only call it makes is the `find`: no `Get` and no `Create` is issued on the client. -/
theorem reconcile_find_error {σ : Type} (K : Constants) (r : redisReconciler σ) (s s1 : σ)
    (ref : Option ObjectReference) (e : GoError)
    (hfind : r.resourceClassFinder.find s r.base.GetProviderRef K.RedisClusterKindAPIVersion
      = ((ref, some e), s1)) :
    (reconcile K r s).err
        = some (.wrap e ("failed to find resource class for redis provider "
            ++ K.formatObjectReference r.base.GetProviderRef))
      ∧ (reconcile K r s).calls = [.find r.base.GetProviderRef K.RedisClusterKindAPIVersion]
      ∧ ∀ c ∈ (reconcile K r s).calls, c.isGet = false ∧ c.isCreate = false := by
  simp [reconcile, hfind, Wrapf, Sprintf_failedToFindResourceClass, getClaimKind,
    redisClaimKind, Call.isGet, Call.isCreate]

/-- Witness of C1: the test case `FailToFindResourceClass`, run on the Redis reconciler. -/
theorem reconcile_find_error_witness :
    (reconcile sampleConstants (sampleReconciler brokenClient failingFinder none) ()).err
        = some (.wrap testError ("failed to find resource class for redis provider "
            ++ "default/test-provider"))
      ∧ (reconcile sampleConstants (sampleReconciler brokenClient failingFinder none) ()).calls
        = [.find sampleGitLab.Spec.ProviderRef "RedisCluster.cache.crossplane.io/v1alpha1"]
      ∧ ∀ c ∈ (reconcile sampleConstants
            (sampleReconciler brokenClient failingFinder none) ()).calls,
          c.isGet = false ∧ c.isCreate = false :=
  reconcile_find_error sampleConstants (sampleReconciler brokenClient failingFinder none)
    () () none testError rfl

/-- In the create branch the `Create` is handed the object that `Get` was handed, as `Get`
left it. -/
theorem reconcile_not_found_create_arg {σ : Type} (K : Constants) (r : redisReconciler σ)
    (s s1 s2 : σ) (ref : Option ObjectReference) (e : GoError) (red1 : RedisCluster)
    (hfind : r.resourceClassFinder.find s r.base.GetProviderRef K.RedisClusterKindAPIVersion
      = ((ref, none), s1))
    (hget : r.base.client.Get s1 r.base.newNamespacedName (newClaim K r ref)
      = (some e, red1, s2))
    (hnf : IsNotFound e = true) :
    (reconcile K r s).calls.filter Call.isCreate = [.create red1]
      ∧ (reconcile K r s).err
          = Wrapf (r.base.client.Create s2 red1).1
              ("failed to create redis " ++ r.base.newNamespacedName.String) := by
  simp [reconcile, hfind, hget, hnf, Call.isCreate, Sprintf_failedToCreate, getClaimKind,
    redisClaimKind]

/-- The claim C2 fails as stated: the finder succeeds and the `Get` reports not-found, but
that `Get` has written the engine version `9.9` into the object, and `reconcile` hands the
object on to `Create` as `Get` left it; the one `Create` issued is therefore not for the
claim with the fixed engine version. -/
theorem reconcile_not_found_creates_counterexample :
    (nilFinder.find () (sampleReconciler rewritingClient nilFinder none).base.GetProviderRef
        sampleConstants.RedisClusterKindAPIVersion).1 = (none, none)
      ∧ ((rewritingClient.Get ()
            (sampleReconciler rewritingClient nilFinder none).base.newNamespacedName
            (newClaim sampleConstants (sampleReconciler rewritingClient nilFinder none)
              none)).1.map IsNotFound = some true)
      ∧ (reconcile sampleConstants
            (sampleReconciler rewritingClient nilFinder none) ()).calls.filter Call.isCreate
          = [.create
              { ObjectMeta := (sampleReconciler rewritingClient nilFinder none).base.newObjectMeta
                Spec := { ClassRef := none, EngineVersion := "9.9" } }]
      ∧ (reconcile sampleConstants
            (sampleReconciler rewritingClient nilFinder none) ()).calls.filter Call.isCreate
          ≠ [.create (newClaim sampleConstants
              (sampleReconciler rewritingClient nilFinder none) none)]
      ∧ sampleConstants.redisEngineVersion ≠ "9.9" := by
  decide

/-- C2, amended. When the finder succeeds with class reference `ref` and the `Get` of the
claim reports not-found and leaves the object it was handed as it was, `reconcile` issues
exactly one `Create`, after the `Get`, for the Redis claim with the derived name and
namespace, class reference `ref` and the fixed engine version; it returns nil when that
`Create` returns nil, and when the `Create` fails with `e2` it returns `e2` wrapped with
`failed to create redis <key>`. -/
theorem reconcile_not_found_creates {σ : Type} (K : Constants) (r : redisReconciler σ)
    (s s1 s2 : σ) (ref : Option ObjectReference) (e : GoError)
    (hfind : r.resourceClassFinder.find s r.base.GetProviderRef K.RedisClusterKindAPIVersion
      = ((ref, none), s1))
    (hget : r.base.client.Get s1 r.base.newNamespacedName (newClaim K r ref)
      = (some e, newClaim K r ref, s2))
    (hnf : IsNotFound e = true) :
    (reconcile K r s).calls
        = [.find r.base.GetProviderRef K.RedisClusterKindAPIVersion,
           .get r.base.newNamespacedName (newClaim K r ref),
           .create (newClaim K r ref)]
      ∧ (reconcile K r s).calls.filter Call.isCreate = [.create (newClaim K r ref)]
      ∧ (newClaim K r ref).ObjectMeta.Name = r.base.GitLab.Name ++ "-" ++ r.base.kind
      ∧ (newClaim K r ref).ObjectMeta.Namespace = r.base.GitLab.Namespace
      ∧ (newClaim K r ref).Spec.ClassRef = ref
      ∧ (newClaim K r ref).Spec.EngineVersion = K.redisEngineVersion
      ∧ ((r.base.client.Create s2 (newClaim K r ref)).1 = none → (reconcile K r s).err = none)
      ∧ (∀ e2, (r.base.client.Create s2 (newClaim K r ref)).1 = some e2 →
          (reconcile K r s).err
            = some (.wrap e2 ("failed to create redis " ++ r.base.newNamespacedName.String)))
      ∧ (reconcile K r s).store = (r.base.client.Create s2 (newClaim K r ref)).2 := by
  refine ⟨?_, ?_, rfl, rfl, rfl, rfl, ?_, ?_, ?_⟩
  · simp [reconcile, hfind, hget, hnf]
  · simp [reconcile, hfind, hget, hnf, Call.isCreate]
  · intro hc
    simp [reconcile, hfind, hget, hnf, hc, Wrapf]
  · intro e2 hc
    simp [reconcile, hfind, hget, hnf, hc, Wrapf, Sprintf_failedToCreate, getClaimKind,
      redisClaimKind]
  · simp [reconcile, hfind, hget, hnf]

/-- Witness of C2, amended: the test case `FailToCreate`, run on the Redis reconciler. -/
theorem reconcile_not_found_creates_witness :
    (reconcile sampleConstants
        (sampleReconciler (notFoundClient (some testError)) nilFinder none) ()).err
      = some (.wrap testError "failed to create redis default/test-name-redis") :=
  (reconcile_not_found_creates sampleConstants
    (sampleReconciler (notFoundClient (some testError)) nilFinder none) () () () none
    (NewNotFound "") rfl rfl (by decide)).2.2.2.2.2.2.2.1 testError rfl

/-- C3. When the finder succeeds and the `Get` of the claim succeeds, `reconcile` returns
nil, issues no `Create`, and the stored status is the status of the claim object as that
`Get` filled it in. -/
theorem reconcile_get_success {σ : Type} (K : Constants) (r : redisReconciler σ)
    (s s1 s2 : σ) (ref : Option ObjectReference) (red1 : RedisCluster)
    (hfind : r.resourceClassFinder.find s r.base.GetProviderRef K.RedisClusterKindAPIVersion
      = ((ref, none), s1))
    (hget : r.base.client.Get s1 r.base.newNamespacedName (newClaim K r ref)
      = (none, red1, s2)) :
    (reconcile K r s).err = none
      ∧ (∀ c ∈ (reconcile K r s).calls, c.isCreate = false)
      ∧ (reconcile K r s).status = some red1.Status
      ∧ (reconcile K r s).store = s2 := by
  simp [reconcile, hfind, hget, Call.isCreate]

/-- Witness of C3: the test case `Successful`, run on the Redis reconciler. -/
theorem reconcile_get_success_witness :
    (reconcile sampleConstants (sampleReconciler readyClient nilFinder none) ()).err = none
      ∧ (∀ c ∈ (reconcile sampleConstants
            (sampleReconciler readyClient nilFinder none) ()).calls, c.isCreate = false)
      ∧ (reconcile sampleConstants (sampleReconciler readyClient nilFinder none) ()).status
          = some readyStatus
      ∧ (reconcile sampleConstants (sampleReconciler readyClient nilFinder none) ()).store
          = () :=
  reconcile_get_success sampleConstants (sampleReconciler readyClient nilFinder none)
    () () () none _ rfl rfl

/-- C4. When the finder succeeds and the `Get` of the claim fails with an error `e` that is
not a not-found error, `reconcile` returns `e` wrapped with
`failed to retrieve redis instance <key>`, issues no `Create`, and leaves the stored status
as it was before the call. -/
theorem reconcile_get_other_error {σ : Type} (K : Constants) (r : redisReconciler σ)
    (s s1 s2 : σ) (ref : Option ObjectReference) (e : GoError) (red1 : RedisCluster)
    (hfind : r.resourceClassFinder.find s r.base.GetProviderRef K.RedisClusterKindAPIVersion
      = ((ref, none), s1))
    (hget : r.base.client.Get s1 r.base.newNamespacedName (newClaim K r ref)
      = (some e, red1, s2))
    (hnf : IsNotFound e = false) :
    (reconcile K r s).err
        = some (.wrap e ("failed to retrieve redis instance "
            ++ r.base.newNamespacedName.String))
      ∧ (∀ c ∈ (reconcile K r s).calls, c.isCreate = false)
      ∧ (reconcile K r s).status = r.base.status := by
  simp [reconcile, hfind, hget, hnf, Wrapf, Sprintf_failedToRetrieveInstance, getClaimKind,
    redisClaimKind, Call.isCreate]

/-- Witness of C4: the test case `FailToRetrieveObject-Other`, run on the Redis reconciler
holding a ready status. -/
theorem reconcile_get_other_error_witness :
    (reconcile sampleConstants
        (sampleReconciler brokenClient nilFinder (some readyStatus)) ()).err
        = some (.wrap testError "failed to retrieve redis instance default/test-name-redis")
      ∧ (∀ c ∈ (reconcile sampleConstants
            (sampleReconciler brokenClient nilFinder (some readyStatus)) ()).calls,
          c.isCreate = false)
      ∧ (reconcile sampleConstants
          (sampleReconciler brokenClient nilFinder (some readyStatus)) ()).status
          = some readyStatus :=
  reconcile_get_other_error sampleConstants
    (sampleReconciler brokenClient nilFinder (some readyStatus)) () () () none testError _
    rfl rfl (by decide)

/-- The claim C5 fails as stated: a reconciler that holds a ready status, whose `Get`
reports not-found and whose `Create` succeeds, returns nil and still holds the ready
status, which is neither nil nor the status of the object that `Get` left. -/
theorem reconcile_nil_status_counterexample :
    (reconcile sampleConstants
        (sampleReconciler (notFoundClient none) nilFinder (some readyStatus)) ()).err = none
      ∧ (reconcile sampleConstants
          (sampleReconciler (notFoundClient none) nilFinder (some readyStatus)) ()).status
          = some readyStatus
      ∧ (reconcile sampleConstants
          (sampleReconciler (notFoundClient none) nilFinder (some readyStatus)) ()).status
          ≠ none
      ∧ (reconcile sampleConstants
          (sampleReconciler (notFoundClient none) nilFinder (some readyStatus)) ()).status
          ≠ (observed sampleConstants
              (sampleReconciler (notFoundClient none) nilFinder (some readyStatus)) ()).map
                fun o => o.Status := by
  decide

/-- C5, amended. After `reconcile` returns nil, either the `Get` of that call succeeded and
the stored status is the status of the claim as that `Get` filled it in, or the `Get`
reported not-found, the `Create` succeeded and the stored status is what it was before the
call. In particular, for a reconciler whose stored status was nil before the call, the
stored status afterwards is nil or the status of the claim as the `Get` left it. -/
theorem reconcile_nil_status {σ : Type} (K : Constants) (r : redisReconciler σ) (s : σ)
    (h : (reconcile K r s).err = none) :
    (∃ ref s1,
        r.resourceClassFinder.find s r.base.GetProviderRef K.RedisClusterKindAPIVersion
          = ((ref, none), s1)
        ∧ ((∃ red1 s2,
              r.base.client.Get s1 r.base.newNamespacedName (newClaim K r ref)
                = (none, red1, s2)
              ∧ (reconcile K r s).status = some red1.Status
              ∧ observed K r s = some red1)
          ∨ (∃ e red1 s2,
              r.base.client.Get s1 r.base.newNamespacedName (newClaim K r ref)
                = (some e, red1, s2)
              ∧ IsNotFound e = true
              ∧ (r.base.client.Create s2 red1).1 = none
              ∧ (reconcile K r s).status = r.base.status)))
      ∧ (r.base.status = none →
          (reconcile K r s).status = none
            ∨ (reconcile K r s).status = (observed K r s).map fun o => o.Status) := by
  rcases hf : r.resourceClassFinder.find s r.base.GetProviderRef K.RedisClusterKindAPIVersion
    with ⟨⟨ref, ferr⟩, s1⟩
  cases ferr with
  | some fe => simp [reconcile, hf, Wrapf] at h
  | none =>
    rcases hg : r.base.client.Get s1 r.base.newNamespacedName (newClaim K r ref)
      with ⟨gerr, red1, s2⟩
    cases gerr with
    | none =>
      refine ⟨⟨ref, s1, rfl, Or.inl ⟨red1, s2, hg, ?_, ?_⟩⟩, fun _ => Or.inr ?_⟩
      · simp [reconcile, hf, hg]
      · simp [observed, hf, hg]
      · simp [reconcile, observed, hf, hg]
    | some ge =>
      cases hnf : IsNotFound ge with
      | false => simp [reconcile, hf, hg, hnf, Wrapf] at h
      | true =>
        rcases hc : r.base.client.Create s2 red1 with ⟨cerr, s3⟩
        cases cerr with
        | some ce => simp [reconcile, hf, hg, hnf, hc, Wrapf] at h
        | none =>
          refine ⟨⟨ref, s1, rfl, Or.inr ⟨ge, red1, s2, hg, hnf, ?_, ?_⟩⟩, fun h0 => Or.inl ?_⟩
          · simp [hc]
          · simp [reconcile, hf, hg, hnf]
          · simp [reconcile, hf, hg, hnf, h0]

/-- Witness of C5, amended: a fresh reconciler whose `Get` reports not-found and whose
`Create` succeeds returns nil and keeps its nil status. -/
theorem reconcile_nil_status_witness :
    (reconcile sampleConstants
        (sampleReconciler (notFoundClient none) nilFinder none) ()).err = none
      ∧ ((reconcile sampleConstants
            (sampleReconciler (notFoundClient none) nilFinder none) ()).status = none
        ∨ (reconcile sampleConstants
            (sampleReconciler (notFoundClient none) nilFinder none) ()).status
          = (observed sampleConstants
              (sampleReconciler (notFoundClient none) nilFinder none) ()).map
                fun o => o.Status) :=
  ⟨rfl, (reconcile_nil_status sampleConstants
    (sampleReconciler (notFoundClient none) nilFinder none) () rfl).2 rfl⟩

/-! ## Idempotence over the object store -/

theorem IsNotFound_NewNotFound (name : String) : IsNotFound (NewNotFound name) = true := by
  simp [IsNotFound, NewNotFound]

theorem Store.lookup_cons_self (st : Store) (obj : RedisCluster) :
    Store.lookup (obj :: st)
      { Namespace := obj.ObjectMeta.Namespace, Name := obj.ObjectMeta.Name } = some obj := by
  simp [Store.lookup]

/-- C6. Over the object store, in which `Create` adds the object and `Get` finds exactly
the stored objects: if a first `reconcile` returns nil, then a second `reconcile`, run on
the store the first one left and with the same finder result (whatever status the
reconciler holds by then), returns nil, issues no `Create` and leaves the store
unchanged. -/
theorem reconcile_idempotent (K : Constants) (g : GitLab) (kind : String)
    (status status2 : Option ResourceClaimStatus)
    (res : Option ObjectReference × Option GoError) (store : Store)
    (h : (reconcile K (storeReconciler g kind status res) store).err = none) :
    (reconcile K (storeReconciler g kind status2 res)
        (reconcile K (storeReconciler g kind status res) store).store).err = none
      ∧ (∀ c ∈ (reconcile K (storeReconciler g kind status2 res)
          (reconcile K (storeReconciler g kind status res) store).store).calls,
          c.isCreate = false)
      ∧ (reconcile K (storeReconciler g kind status2 res)
          (reconcile K (storeReconciler g kind status res) store).store).store
        = (reconcile K (storeReconciler g kind status res) store).store := by
  obtain ⟨ref, ferr⟩ := res
  cases ferr with
  | some fe => simp [reconcile, storeReconciler, constFinder, Wrapf] at h
  | none =>
    cases hl : Store.lookup store
        (storeReconciler g kind status (ref, none)).base.newNamespacedName with
    | some o =>
      have hl2 : Store.lookup store
          (storeReconciler g kind status2 (ref, none)).base.newNamespacedName = some o := hl
      simp [reconcile, storeReconciler, constFinder, storeClient] at hl hl2 ⊢
      simp [hl, hl2, Call.isCreate]
    | none =>
      have hc := Store.lookup_cons_self store
        (newClaim K (storeReconciler g kind status (ref, none)) ref)
      simp [reconcile, storeReconciler, constFinder, storeClient, newClaim,
        baseResourceReconciler.newNamespacedName, baseResourceReconciler.newObjectMeta,
        IsNotFound_NewNotFound] at hl hc ⊢
      simp [hl, hc, IsNotFound_NewNotFound, Call.isCreate]

/-- Witness of C6: from the empty store, the first run creates the claim; the second run
leaves the store as the first one left it. -/
theorem reconcile_idempotent_witness :
    (reconcile sampleConstants (sampleStoreReconciler none) []).store
        = [newClaim sampleConstants (sampleStoreReconciler none) none]
      ∧ (reconcile sampleConstants (sampleStoreReconciler none)
          (reconcile sampleConstants (sampleStoreReconciler none) []).store).store
        = (reconcile sampleConstants (sampleStoreReconciler none) []).store :=
  ⟨rfl, (reconcile_idempotent sampleConstants sampleGitLab "redis" none none (none, none) []
    rfl).2.2⟩

/-! ## Bucket connection-secret synthesizer -/

theorem createSecretData_nonempty (format outKey : String) (secret : Secret)
    (h : secret.Data.len ≠ 0) :
    (createSecretData format outKey secret).1 = none
      ∧ (createSecretData format outKey secret).2.Data.get outKey
          = some (Sprintf format
              [(secret.Data.get ResourceCredentialsSecretUserKey).getD "",
               (secret.Data.get ResourceCredentialsSecretPasswordKey).getD ""])
      ∧ ∀ k, k ≠ outKey →
          (createSecretData format outKey secret).2.Data.get k = secret.Data.get k := by
  obtain ⟨d⟩ := secret
  cases d with
  | none => simp [SecretData.len] at h
  | some m =>
    have h0 : SecretData.len (some m) ≠ 0 := h
    refine ⟨?_, ?_, ?_⟩
    · simp [createSecretData, h0]
    · simp [createSecretData, h0, SecretData.get, SecretData.getString]
    · intro k hk
      simp [createSecretData, h0, SecretData.get, AList.lookup_insert_ne hk]

theorem createSecretData_empty (format outKey : String) (secret : Secret)
    (h : secret.Data.len = 0) :
    createSecretData format outKey secret
      = (some (.plain "empty connection secret"), secret) := by
  simp [createSecretData, h, errorMsgEmptyConnectionSecret]

/-- C7. For every secret whose data map has at least one entry, each of the two AWS
creators returns nil, and afterwards the data map holds, under `connection` (resp.
`config`), `awsConnectionFmt` (resp. `awsS3CmdConfigFmt`) rendered with the input values
under `username` and `password`, each taken as the empty string when absent, while every
other key keeps its input value. -/
theorem aws_create_nonempty (F : AwsFormats) (secret : Secret) (h : secret.Data.len ≠ 0) :
    ((awsSecretConnectionCreator.create F secret).1 = none
      ∧ (awsSecretConnectionCreator.create F secret).2.Data.get "connection"
          = some (Sprintf F.awsConnectionFmt
              [(secret.Data.get "username").getD "", (secret.Data.get "password").getD ""])
      ∧ ∀ k, k ≠ "connection" →
          (awsSecretConnectionCreator.create F secret).2.Data.get k = secret.Data.get k)
    ∧ ((awsSecretS3CmdConfigCreator.create F secret).1 = none
      ∧ (awsSecretS3CmdConfigCreator.create F secret).2.Data.get "config"
          = some (Sprintf F.awsS3CmdConfigFmt
              [(secret.Data.get "username").getD "", (secret.Data.get "password").getD ""])
      ∧ ∀ k, k ≠ "config" →
          (awsSecretS3CmdConfigCreator.create F secret).2.Data.get k = secret.Data.get k) :=
  ⟨createSecretData_nonempty F.awsConnectionFmt connectionKey secret h,
    createSecretData_nonempty F.awsS3CmdConfigFmt configKey secret h⟩

/-- Witness of C7: the test case `Keys`. -/
theorem aws_create_nonempty_witness :
    (awsSecretConnectionCreator.create sampleFormats { Data := some keysData }).2.Data.get
        "connection" = some "id=test-access key=test-secret"
      ∧ (awsSecretConnectionCreator.create sampleFormats { Data := some keysData }).2.Data.get
        "foo" = some "bar" :=
  ⟨(aws_create_nonempty sampleFormats { Data := some keysData } (by decide)).1.2.1,
   ((aws_create_nonempty sampleFormats { Data := some keysData } (by decide)).1.2.2
      "foo" (by decide)).trans (by decide)⟩

/-- C8. For every secret whose data map is nil or has zero entries, each of the two AWS
creators returns the error `empty connection secret` and leaves the secret, and so its
data map, exactly as it was. -/
theorem aws_create_empty (F : AwsFormats) (secret : Secret)
    (h : secret.Data = none ∨ ∃ m, secret.Data = some m ∧ m.entries.length = 0) :
    awsSecretConnectionCreator.create F secret
        = (some (.plain "empty connection secret"), secret)
      ∧ awsSecretS3CmdConfigCreator.create F secret
        = (some (.plain "empty connection secret"), secret) := by
  have h0 : secret.Data.len = 0 := by
    rcases h with h | ⟨m, hm, hl⟩
    · simp [h, SecretData.len]
    · simp [hm, SecretData.len, hl]
  exact ⟨createSecretData_empty _ _ secret h0, createSecretData_empty _ _ secret h0⟩

/-- Witness of C8: the test cases `Default` (nil map) and `Empty` (empty map). -/
theorem aws_create_empty_witness :
    (awsSecretConnectionCreator.create sampleFormats { Data := none }
        = (some (.plain "empty connection secret"), { Data := none })
      ∧ awsSecretS3CmdConfigCreator.create sampleFormats { Data := none }
        = (some (.plain "empty connection secret"), { Data := none }))
    ∧ (awsSecretConnectionCreator.create sampleFormats { Data := some ∅ }
        = (some (.plain "empty connection secret"), { Data := some ∅ })
      ∧ awsSecretS3CmdConfigCreator.create sampleFormats { Data := some ∅ }
        = (some (.plain "empty connection secret"), { Data := some ∅ })) :=
  ⟨aws_create_empty sampleFormats { Data := none } (Or.inl rfl),
   aws_create_empty sampleFormats { Data := some ∅ } (Or.inr ⟨∅, rfl, rfl⟩)⟩

/-- C9. For every pair of creators and every secret, `update` invokes the connection
creator first; if that fails with `e` it returns `e` wrapped with
`failed to create connection data` and does not invoke the config creator; otherwise it
invokes the config creator on the secret as the connection creator left it and, if that
fails with `e`, returns `e` wrapped with `failed to create config data`; it returns nil
exactly when both creators return nil. -/
theorem aws_update_order (u : awsSecretUpdater) (secret : Secret) :
    (u.update secret).invoked.head? = some .connection
      ∧ (∀ e, (u.connection.create secret).1 = some e →
          (u.update secret).err = some (.wrap e "failed to create connection data")
            ∧ (u.update secret).invoked = [.connection])
      ∧ ((u.connection.create secret).1 = none →
          (u.update secret).invoked = [.connection, .config]
            ∧ ∀ e, (u.config.create (u.connection.create secret).2).1 = some e →
                (u.update secret).err = some (.wrap e "failed to create config data"))
      ∧ ((u.update secret).err = none ↔
          (u.connection.create secret).1 = none
            ∧ (u.config.create (u.connection.create secret).2).1 = none) := by
  rcases h1 : u.connection.create secret with ⟨e1, s1⟩
  cases e1 with
  | some e =>
    simp [awsSecretUpdater.update, h1, Wrapf, errorFailedToCreateConnectionData]
  | none =>
    rcases h2 : u.config.create s1 with ⟨e2, s2⟩
    cases e2 with
    | some e =>
      simp [awsSecretUpdater.update, h1, h2, Wrapf, errorFailedToCreateConfigData]
    | none => simp [awsSecretUpdater.update, h1, h2]

/-- Witness of C9: the test cases `CreateConnectionFailed` and `CreateConfigFailed`. -/
theorem aws_update_order_witness :
    ((awsSecretUpdater.update
          { connection := mockSecretDataCreator (some testError)
            config := mockSecretDataCreator none } {}).err
        = some (.wrap testError "failed to create connection data")
      ∧ (awsSecretUpdater.update
          { connection := mockSecretDataCreator (some testError)
            config := mockSecretDataCreator none } {}).invoked = [.connection])
    ∧ (awsSecretUpdater.update
          { connection := mockSecretDataCreator none
            config := mockSecretDataCreator (some testError) } {}).err
        = some (.wrap testError "failed to create config data") :=
  ⟨(aws_update_order
      { connection := mockSecretDataCreator (some testError)
        config := mockSecretDataCreator none } {}).2.1 testError rfl,
   ((aws_update_order
      { connection := mockSecretDataCreator none
        config := mockSecretDataCreator (some testError) } {}).2.2.1 rfl).2 testError rfl⟩

/-! ## Kubernetes reconciler with a cluster reference -/

/-- C10. For every declaration that carries a `clusterRef`, the Kubernetes `reconcile`
makes exactly one call, a `Get` under the reference's namespace and name: the finder is
not called and no `Create` is issued. When that `Get` succeeds, `reconcile` returns nil
and the stored status is the status of the object read; when it fails with `e`,
`reconcile` returns `e` wrapped with `failed to retrieve <kind> instance <key>`. -/
theorem kubernetes_reconcile_clusterRef {σ : Type} (K : KubernetesConstants)
    (r : kubernetesReconciler σ) (s : σ) (cref : ObjectReference)
    (h : r.base.GitLab.Spec.ClusterRef = some cref) :
    (kubernetesReconciler.reconcile K r s).calls
        = [.get { Namespace := cref.Namespace, Name := cref.Name } {}]
      ∧ (∀ c ∈ (kubernetesReconciler.reconcile K r s).calls,
          c.isFind = false ∧ c.isCreate = false)
      ∧ (∀ obj1 s1,
          r.base.client.Get s { Namespace := cref.Namespace, Name := cref.Name } {}
            = (none, obj1, s1) →
          (kubernetesReconciler.reconcile K r s).err = none
            ∧ (kubernetesReconciler.reconcile K r s).status = some obj1.Status)
      ∧ (∀ e obj1 s1,
          r.base.client.Get s { Namespace := cref.Namespace, Name := cref.Name } {}
            = (some e, obj1, s1) →
          (kubernetesReconciler.reconcile K r s).err
            = some (.wrap e ("failed to retrieve " ++ K.kubernetesClaimKind ++ " instance "
                ++ NamespacedName.String
                    { Namespace := cref.Namespace, Name := cref.Name }))) := by
  rcases hg : r.base.client.Get s { Namespace := cref.Namespace, Name := cref.Name } {}
    with ⟨gerr, obj1, s1⟩
  cases gerr with
  | none => simp [kubernetesReconciler.reconcile, h, hg, Call.isFind, Call.isCreate]
  | some e =>
    simp [kubernetesReconciler.reconcile, h, hg, Call.isFind, Call.isCreate, Wrapf,
      Sprintf_failedToRetrieveInstance]

/-- Witness of C10: the test cases `SuccessfulWithClusterRef` and `FailureWithClusterRef`. -/
theorem kubernetes_reconcile_clusterRef_witness :
    ((kubernetesReconciler.reconcile sampleKubernetesConstants
          (sampleKubernetesReconciler none) ()).err = none
      ∧ (kubernetesReconciler.reconcile sampleKubernetesConstants
          (sampleKubernetesReconciler none) ()).status = some creatingStatus)
    ∧ (kubernetesReconciler.reconcile sampleKubernetesConstants
          (sampleKubernetesReconciler (some testError)) ()).err
        = some (.wrap testError
            "failed to retrieve kubernetes instance default/test-name") :=
  ⟨(kubernetes_reconcile_clusterRef sampleKubernetesConstants
      (sampleKubernetesReconciler none) () _ rfl).2.2.1 _ _ rfl,
   (kubernetes_reconcile_clusterRef sampleKubernetesConstants
      (sampleKubernetesReconciler (some testError)) () _ rfl).2.2.2 _ _ _ rfl⟩

end Gitlab
